import Mathlib

/-
  Verification development for the whisper-api-cpp service (src/main.py).

  The transcription orchestration in `transcribe`, the cleanup helper
  `cleanup_temp_files`, the startup engine discovery (module-level
  `WHISPER_BINARY` / `MODEL_PATH` selection) and the `health_check`
  endpoint are embedded shallowly below.  External-process behaviour
  (ffmpeg, the whisper binary) and the filesystem are modelled as
  explicit inputs; the Python string operations used by the code
  (`split("\n")`, `strip()`, `startswith`, substring membership,
  `"\n".join`) are translated as executable functions on `List Char`.
-/

namespace WhisperApi

/-! ### String primitives (translations of the Python string operations) -/

/-- `listPre needle hay`: `needle` is a leading segment of `hay`
(used for Python's `startswith` and for substring search). -/
def listPre : List Char → List Char → Bool
  | [], _ => true
  | _ :: _, [] => false
  | a :: as, b :: bs => a = b && listPre as bs

/-- `listSub needle hay`: `needle` occurs contiguously inside `hay`
(Python's `needle in hay`). -/
def listSub (needle : List Char) : List Char → Bool
  | [] => needle.isEmpty
  | b :: bs => listPre needle (b :: bs) || listSub needle bs

/-- Python's `needle in hay` on strings. -/
def strContains (hay needle : String) : Bool :=
  listSub needle.data hay.data

/-- Whitespace characters removed by Python's `str.strip()`. -/
def isWsChar (c : Char) : Bool :=
  c = ' ' || c = '\t' || c = '\n' || c = '\r' || c = '\x0b' || c = '\x0c'

/-- Python's `str.strip()`: drop whitespace from both ends. -/
def strTrim (s : String) : String :=
  String.mk ((((s.data.dropWhile isWsChar).reverse).dropWhile isWsChar).reverse)

/-- Python's `s.split("\n")` on the character list: always returns at least
one (possibly empty) piece. -/
def splitCharLines : List Char → List (List Char)
  | [] => [[]]
  | c :: cs =>
    let rest := splitCharLines cs
    if c = '\n' then [] :: rest
    else
      match rest with
      | [] => [[c]]
      | h :: t => (c :: h) :: t

/-- Python's `s.split("\n")`. -/
def splitLines (s : String) : List String :=
  (splitCharLines s.data).map String.mk

/-- Python's `sep.join(parts)`. -/
def joinWith (sep : String) : List String → String
  | [] => ""
  | [x] => x
  | x :: xs => x ++ sep ++ joinWith sep xs

/-- Python's `line.startswith(c)` for a single character. -/
def strStarts (s : String) (c : Char) : Bool :=
  match s.data with
  | [] => false
  | a :: _ => a = c

/-! ### Engine discovery (module level of main.py, lines 20-46) -/

/-- `WHISPER_CPP_DIR` from main.py line 21. -/
def WHISPER_CPP_DIR : String := "/app/whisper.cpp"

/-- `WHISPER_BINARY_MAIN` (os.path.join of the dir and `build/bin/main`). -/
def WHISPER_BINARY_MAIN : String := "/app/whisper.cpp/build/bin/main"

/-- `WHISPER_BINARY_CLI` (os.path.join of the dir and `build/bin/whisper-cli`). -/
def WHISPER_BINARY_CLI : String := "/app/whisper.cpp/build/bin/whisper-cli"

/-- `BASE_MODEL_PATH` from main.py line 34. -/
def BASE_MODEL_PATH : String := "/app/whisper.cpp/models/base.en.bin"

/-- `TINY_MODEL_PATH` from main.py line 35. -/
def TINY_MODEL_PATH : String := "/app/whisper.cpp/models/tiny.en.bin"

/-- Snapshot of the filesystem facts the module-level discovery and the
health check query: existence/executability of the two binary candidates
and existence/size of the two model files. -/
structure StartupFs where
  cliExists : Bool
  cliExec : Bool
  mainExists : Bool
  mainExec : Bool
  baseExists : Bool
  baseSize : Nat
  tinyExists : Bool
  tinySize : Nat
  deriving DecidableEq

/-- Binary selection, main.py lines 26-31: prefer `whisper-cli` when it
exists and is executable, else fall back to `main`. -/
def WHISPER_BINARY (fs : StartupFs) : String :=
  if fs.cliExists && fs.cliExec then WHISPER_BINARY_CLI else WHISPER_BINARY_MAIN

/-- Model selection, main.py lines 37-46: base model when present and over
100000000 bytes, else tiny when present and over 10000000 bytes, else
default to the base path and let the health check report the issue. -/
def MODEL_PATH (fs : StartupFs) : String :=
  if fs.baseExists && decide (fs.baseSize > 100000000) then BASE_MODEL_PATH
  else if fs.tinyExists && decide (fs.tinySize > 10000000) then TINY_MODEL_PATH
  else BASE_MODEL_PATH

/-! ### Stdout line filters and transcript extraction (main.py lines 138-309) -/

/-- The warning markers skipped by every stdout filter (lines 153-155,
206-208, 258-260, 301-303). -/
def warningMarkers : List String :=
  ["WARNING:", "deprecated", "whisper-cli", "https://github.com"]

/-- `any(warning in line for warning in [...])`. -/
def hasMarker (line : String) : Bool :=
  warningMarkers.any (fun w => strContains line w)

/-- Line filter of the first (standard) attempt, lines 151-161: skip
warning-marker lines, skip blank lines, keep the rest (bracketed lines
are kept). -/
def keepStd (line : String) : Bool :=
  if hasMarker line then false
  else if strTrim line = "" then false
  else true

/-- Line filter of the streaming / language / tiny-model attempts
(lines 204-217, 256-262, 299-305): additionally skip lines starting
with a bracket. -/
def keepStream (line : String) : Bool :=
  if hasMarker line then false
  else if strStarts line '[' then false
  else if strTrim line = "" then false
  else true

/-- Split stdout into lines, keep the lines the filter accepts, join with
a newline; the code only assigns the join when the kept list is non-empty,
and an unassigned transcript behaves as the empty string. -/
def joinKept (keep : String → Bool) (out : String) : String :=
  let ls := (splitLines out).filter keep
  if ls.isEmpty then "" else joinWith "\n" ls

/-- Observable output of one whisper invocation: content of the sidecar
`.txt` file when such a file exists, and the captured stdout text. -/
structure AttemptOut where
  txt : Option String
  out : String
  deriving DecidableEq

/-- Extraction after the first (standard) attempt, lines 138-165: read the
sidecar file when it exists and strip it; when that yields nothing, parse
the filtered stdout. -/
def extractStd (r : AttemptOut) : String :=
  match r.txt with
  | some c => if strTrim c = "" then joinKept keepStd r.out else strTrim c
  | none => joinKept keepStd r.out

/-- Extraction after the streaming / language / tiny-model attempts: the
code parses stdout only and never consults a sidecar file there. -/
def extractStream (r : AttemptOut) : String :=
  joinKept keepStream r.out

/-! ### Subprocess invocations (argument lists built by the code) -/

/-- One `subprocess.run` call: its argument list and the wall-clock
timeout passed to `subprocess.run` (`none` when no `timeout=` argument
is given). -/
structure ProcInvocation where
  args : List String
  timeoutMs : Option Nat
  deriving DecidableEq

/-- ffmpeg conversion command, lines 69-76. -/
def convertCmd (inputPath wavPath : String) : List String :=
  ["ffmpeg", "-i", inputPath, "-ar", "16000", "-ac", "1",
   "-c:a", "pcm_s16le", "-f", "wav", wavPath]

/-- First attempt command, lines 108-123. -/
def stdCmd (isCli : Bool) (bin model wav : String) : List String :=
  if isCli then [bin, "--model", model, "--file", wav, "--output-txt"]
  else [bin, "-m", model, "-f", wav, "-otxt"]

/-- Streaming attempt command, lines 172-187. -/
def streamCmd (isCli : Bool) (bin model wav : String) : List String :=
  if isCli then [bin, "--model", model, "--file", wav, "--print-special", "--print-progress"]
  else [bin, "-m", model, "-f", wav, "--print-special", "--print-progress"]

/-- Explicit-language attempt command, lines 228-241. -/
def langCmd (isCli : Bool) (bin model wav : String) : List String :=
  if isCli then [bin, "--model", model, "--file", wav, "--language", "en"]
  else [bin, "-m", model, "-f", wav, "-l", "en"]

/-- Tiny-model fallback command, lines 273-284: only model and file flags. -/
def tinyCmd (isCli : Bool) (bin tiny wav : String) : List String :=
  if isCli then [bin, "--model", tiny, "--file", wav]
  else [bin, "-m", tiny, "-f", wav]

/-- The sentinel message returned when every attempt produced empty text,
line 320. -/
def sentinelMsg : String :=
  "Could not generate transcript. The audio might be silent, in an unsupported format, or the models might be having issues."

/-! ### The transcribe orchestration (main.py lines 48-340) -/

/-- Request-time environment of one `/transcribe` call: the per-request
file paths and what the external processes / filesystem do at each step. -/
structure TranscribeEnv where
  inputPath : String
  wavPath : String
  decodeRc : Int
  decodeStderr : String
  wavPresent : Bool
  wavSize : Nat
  a1 : AttemptOut
  a2 : AttemptOut
  a3 : AttemptOut
  tinyPresent : Bool
  a4 : AttemptOut
  deriving DecidableEq

/-- Observable outcome of one `/transcribe` call: HTTP status, the
`transcript` field of the JSON body, whether the per-request temporary
directory was released on this path (directly or via the background
task), and the subprocess invocations performed, in order. -/
structure FinalState where
  status : Nat
  transcript : String
  cleaned : Bool
  invocations : List ProcInvocation
  deriving DecidableEq

/-- Shallow embedding of `transcribe` (main.py lines 48-340).
The code's sequential `if not transcript:` guards are rendered as nested
conditionals; each `subprocess.run` call passes no `timeout=` argument,
hence every recorded invocation carries `timeoutMs = none`.  The two
decode-failure returns (lines 86-98) happen before the cleanup of lines
311-315 and are not covered by a `finally`, so those paths leave the
temporary directory in place (`cleaned = false`). -/
def transcribeModel (fs : StartupFs) (env : TranscribeEnv) : FinalState :=
  let bin := WHISPER_BINARY fs
  let model := MODEL_PATH fs
  let isCli := bin == WHISPER_BINARY_CLI
  let decodeInv : ProcInvocation := ⟨convertCmd env.inputPath env.wavPath, none⟩
  if env.decodeRc ≠ 0 then
    ⟨500, "Error: Failed to convert audio file. ffmpeg error: " ++ env.decodeStderr,
     false, [decodeInv]⟩
  else if env.wavPresent = false ∨ env.wavSize = 0 then
    ⟨500, "Error: Failed to convert audio file", false, [decodeInv]⟩
  else
    let inv1 : ProcInvocation := ⟨stdCmd isCli bin model env.wavPath, none⟩
    let t1 := extractStd env.a1
    if t1 ≠ "" then ⟨200, t1, true, [decodeInv, inv1]⟩
    else
      let inv2 : ProcInvocation := ⟨streamCmd isCli bin model env.wavPath, none⟩
      let t2 := extractStream env.a2
      if t2 ≠ "" then ⟨200, t2, true, [decodeInv, inv1, inv2]⟩
      else
        let inv3 : ProcInvocation := ⟨langCmd isCli bin model env.wavPath, none⟩
        let t3 := extractStream env.a3
        if t3 ≠ "" then ⟨200, t3, true, [decodeInv, inv1, inv2, inv3]⟩
        else if model = BASE_MODEL_PATH ∧ env.tinyPresent = true then
          let inv4 : ProcInvocation := ⟨tinyCmd isCli bin TINY_MODEL_PATH env.wavPath, none⟩
          let t4 := extractStream env.a4
          if t4 ≠ "" then ⟨200, t4, true, [decodeInv, inv1, inv2, inv3, inv4]⟩
          else ⟨200, sentinelMsg, true, [decodeInv, inv1, inv2, inv3, inv4]⟩
        else ⟨200, sentinelMsg, true, [decodeInv, inv1, inv2, inv3]⟩

/-! ### Workspace cleanup (main.py lines 342-349) -/

/-- `p` lies inside the directory `td` (it is the directory itself or a
path under it); `shutil.rmtree(td)` removes exactly these paths. -/
def isUnderDir (td p : String) : Bool :=
  p == td || listPre (td ++ "/").data p.data

/-- `cleanup_temp_files` (lines 342-349) over a filesystem modelled as
the list of existing paths: when the directory exists, remove it and
everything under it; otherwise do nothing (and the surrounding
`try`/`except` swallows any error, so the function is total). -/
def cleanup_temp_files (td : String) (fsPaths : List String) : List String :=
  if td ∈ fsPaths then fsPaths.filter (fun p => !(isUnderDir td p)) else fsPaths

/-! ### Health check (main.py lines 423-496) -/

/-- `os.path.exists` restricted to the four discovery paths. -/
def pathExistsAt (fs : StartupFs) (p : String) : Bool :=
  if p = WHISPER_BINARY_CLI then fs.cliExists
  else if p = WHISPER_BINARY_MAIN then fs.mainExists
  else if p = BASE_MODEL_PATH then fs.baseExists
  else if p = TINY_MODEL_PATH then fs.tinyExists
  else false

/-- `os.access(p, os.X_OK)` for the two binary candidates. -/
def binExecAt (fs : StartupFs) (p : String) : Bool :=
  if p = WHISPER_BINARY_CLI then fs.cliExec
  else if p = WHISPER_BINARY_MAIN then fs.mainExec
  else false

/-- `os.path.getsize` for the two model files. -/
def fileSizeAt (fs : StartupFs) (p : String) : Nat :=
  if p = BASE_MODEL_PATH then fs.baseSize
  else if p = TINY_MODEL_PATH then fs.tinySize
  else 0

/-- The `status` field of the health response (line 454): healthy iff the
selected binary exists and is executable and the selected model exists
with size strictly over 10000000 bytes. -/
def healthStatus (fs : StartupFs) : String :=
  let bin := WHISPER_BINARY fs
  let mp := MODEL_PATH fs
  let binaryExists := pathExistsAt fs bin
  let isExecutable := if binaryExists then binExecAt fs bin else false
  let modelExists := pathExistsAt fs mp
  let modelSize := if modelExists then fileSizeAt fs mp else 0
  if binaryExists && isExecutable && modelExists && decide (modelSize > 10000000)
  then "healthy" else "unhealthy"

/-- The `models.active_model.status` field (line 450): `Valid` iff the
active model's size is strictly over 10000000 bytes. -/
def activeModelStatus (fs : StartupFs) : String :=
  let mp := MODEL_PATH fs
  let modelExists := pathExistsAt fs mp
  let modelSize := if modelExists then fileSizeAt fs mp else 0
  if decide (modelSize > 10000000) then "Valid" else "Invalid/Corrupted"

/-- The per-model validity threshold used at discovery (lines 37 and 40):
100000000 bytes for the base model, 10000000 bytes for the tiny model. -/
def discoveryThreshold (p : String) : Nat :=
  if p = BASE_MODEL_PATH then 100000000 else 10000000

/-- The sidecar-first extraction rule as the specification words it for
every attempt: prefer the sidecar text file when present and non-empty,
fall back to the filtered stdout otherwise.  Used to compare the code's
per-attempt extraction against the specified rule. -/
def specSidecarFirstRule (keep : String → Bool) (r : AttemptOut) : String :=
  match r.txt with
  | some c => if strTrim c = "" then joinKept keep r.out else strTrim c
  | none => joinKept keep r.out

/-! ### Concrete discovery snapshots and request environments -/

/-- Discovery snapshot: cli binary usable, valid base model (150 MB) and
tiny model (20 MB) both present. -/
def fsCli : StartupFs :=
  ⟨true, true, true, true, true, 150000000, true, 20000000⟩

/-- Discovery snapshot: binaries usable, base model present at 50000000
bytes (below its 100000000-byte discovery threshold), tiny model absent;
discovery falls back to the base path. -/
def fsBaseSmall : StartupFs :=
  ⟨true, true, true, true, true, 50000000, false, 0⟩

/-- Discovery snapshot: binaries usable, base model present at 8000000
bytes, tiny model absent. -/
def fsBaseTiny : StartupFs :=
  ⟨true, true, true, true, true, 8000000, false, 0⟩

/-- An attempt that produced neither a sidecar file nor stdout text. -/
def emptyOut : AttemptOut := ⟨none, ""⟩

/-- Request on which ffmpeg exits with code 1 and diagnostic `boom`. -/
def envDecodeFail : TranscribeEnv :=
  ⟨"/tmp/req/input.mp3", "/tmp/req/converted.wav", 1, "boom",
   false, 0, emptyOut, emptyOut, emptyOut, true, emptyOut⟩

/-- Request on which ffmpeg exits 0 with diagnostic `boom` on stderr but
the output wav file is zero bytes. -/
def envWavEmpty : TranscribeEnv :=
  ⟨"/tmp/req/input.mp3", "/tmp/req/converted.wav", 0, "boom",
   true, 0, emptyOut, emptyOut, emptyOut, true, emptyOut⟩

/-- Request on which decoding succeeds and the first attempt writes the
sidecar text `hello world`. -/
def envOk : TranscribeEnv :=
  ⟨"/tmp/req/input.mp3", "/tmp/req/converted.wav", 0, "",
   true, 64000, ⟨some "hello world", ""⟩, emptyOut, emptyOut, true, emptyOut⟩

/-- Request on which decoding succeeds and every attempt yields neither a
sidecar file nor stdout text (e.g. silent audio). -/
def envAllEmpty : TranscribeEnv :=
  ⟨"/tmp/req/input.mp3", "/tmp/req/converted.wav", 0, "",
   true, 64000, emptyOut, emptyOut, emptyOut, true, emptyOut⟩

/-- Like `envAllEmpty` except that a sidecar file with content `hello`
is present at the second (streaming) attempt. -/
def envSidecar2 : TranscribeEnv :=
  ⟨"/tmp/req/input.mp3", "/tmp/req/converted.wav", 0, "",
   true, 64000, emptyOut, ⟨some "hello", ""⟩, emptyOut, true, emptyOut⟩

/-- Stdout consisting only of bracketed timestamp lines. -/
def bracketOnlyOut : String :=
  "[00:00.000 --> 00:02.000] hi\n[00:02.000 --> 00:04.000] there"

/-- Request on which the first attempt writes no sidecar file and prints
only bracketed timestamp lines on stdout. -/
def envBracket : TranscribeEnv :=
  ⟨"/tmp/req/input.mp3", "/tmp/req/converted.wav", 0, "",
   true, 64000, ⟨none, bracketOnlyOut⟩, emptyOut, emptyOut, true, emptyOut⟩

example : (transcribeModel fsCli envOk).transcript = "hello world" := by decide
example : (transcribeModel fsCli envOk).status = 200 := by decide
example : (transcribeModel fsCli envDecodeFail).cleaned = false := by decide
example : (transcribeModel fsCli envAllEmpty).transcript = sentinelMsg := by decide
example : (transcribeModel fsCli envAllEmpty).invocations.length = 5 := by decide
example : (transcribeModel fsCli envBracket).transcript = bracketOnlyOut := by decide
example : (transcribeModel fsCli envSidecar2).transcript = sentinelMsg := by decide
example : healthStatus fsBaseSmall = "healthy" := by decide
example : healthStatus fsBaseTiny = "unhealthy" := by decide

/-! ### Shared helper lemmas -/

/-- Every exit of the orchestration is a 500 response, the exhaustion
sentinel, or a non-empty transcript. -/
lemma transcript_cases (fs : StartupFs) (env : TranscribeEnv) :
    (transcribeModel fs env).status = 500 ∨
    (transcribeModel fs env).transcript = sentinelMsg ∨
    (transcribeModel fs env).transcript ≠ "" := by
  simp only [transcribeModel]
  split_ifs <;> simp_all

/-- A temporary directory lies inside itself. -/
lemma isUnderDir_self (td : String) : isUnderDir td td = true := by
  simp [isUnderDir]

/-! ### C1 -/

/-- C1: the claim that the per-request workspace is released on every exit
path fails on the decode-failure exits: the two early `return`s of lines
86-98 of main.py run before any cleanup and are not covered by a
`finally`, so the temporary directory is leaked there, while the normal
and exhaustion paths do release it. -/
theorem c1_decode_failure_skips_cleanup :
    (transcribeModel fsCli envDecodeFail).status = 500 ∧
    (transcribeModel fsCli envDecodeFail).cleaned = false ∧
    (transcribeModel fsCli envWavEmpty).cleaned = false ∧
    (transcribeModel fsCli envOk).cleaned = true ∧
    (transcribeModel fsCli envAllEmpty).cleaned = true := by
  decide

/-! ### C2 -/

/-- C2 counterexample: not every external-process invocation of the
orchestration carries an explicit timeout — on a concrete full run, the
list of invocations (decode plus all four attempts) contains no timeout
at all, because no `subprocess.run` call in main.py passes `timeout=`. -/
theorem c2_counterexample :
    ((transcribeModel fsCli envAllEmpty).invocations.all
        fun i => i.timeoutMs.isSome) = false := by
  decide

/-- C2 amended: every external-process invocation performed by the
orchestration is run with no explicit timeout (`subprocess.run` is called
without a `timeout=` argument for the decode call and for each attempt). -/
theorem c2_amended_no_timeouts (fs : StartupFs) (env : TranscribeEnv) :
    ((transcribeModel fs env).invocations.all
        fun i => i.timeoutMs.isNone) = true := by
  simp only [transcribeModel]
  split_ifs <;> rfl

/-! ### C5 -/

/-- C5: whenever the orchestration returns status 200 with a transcript
that is not the exhaustion sentinel, the transcript is non-empty. -/
theorem c5_success_transcript_nonempty (fs : StartupFs) (env : TranscribeEnv)
    (h200 : (transcribeModel fs env).status = 200)
    (hns : (transcribeModel fs env).transcript ≠ sentinelMsg) :
    (transcribeModel fs env).transcript ≠ "" := by
  rcases transcript_cases fs env with h | h | h
  · omega
  · exact absurd h hns
  · exact h

/-- C5 witness: a concrete successful request has a non-empty transcript. -/
theorem c5_success_transcript_nonempty_witness :
    (transcribeModel fsCli envOk).transcript ≠ "" :=
  c5_success_transcript_nonempty fsCli envOk (by decide) (by decide)

/-! ### C7 -/

/-- C7: when decode succeeds and every attempt extracts empty text, the
orchestration returns status 200 with the exhaustion sentinel. -/
theorem c7_exhaustion_returns_200_sentinel (fs : StartupFs) (env : TranscribeEnv)
    (hrc : env.decodeRc = 0) (hwp : env.wavPresent = true) (hws : env.wavSize ≠ 0)
    (h1 : extractStd env.a1 = "") (h2 : extractStream env.a2 = "")
    (h3 : extractStream env.a3 = "") (h4 : extractStream env.a4 = "") :
    (transcribeModel fs env).status = 200 ∧
    (transcribeModel fs env).transcript = sentinelMsg := by
  by_cases hg : MODEL_PATH fs = BASE_MODEL_PATH ∧ env.tinyPresent = true <;>
    simp [transcribeModel, hrc, hwp, hws, h1, h2, h3, h4, hg]

/-- C7 witness: the all-empty request yields 200 with the sentinel. -/
theorem c7_exhaustion_returns_200_sentinel_witness :
    (transcribeModel fsCli envAllEmpty).status = 200 ∧
    (transcribeModel fsCli envAllEmpty).transcript = sentinelMsg :=
  c7_exhaustion_returns_200_sentinel fsCli envAllEmpty (by decide) (by decide)
    (by decide) (by decide) (by decide) (by decide) (by decide)

/-! ### C3 -/

/-- C3 counterexample: in the code's attempt chain the second inference
invocation is the verbose/streaming one (`--print-special`
`--print-progress`) and carries no language flag at all — in particular
no auto-detect flag — while the third invocation pins the language to
`en` explicitly, and the degraded-model fallback omits the plain-text
output flag of attempt 1; this contradicts the claimed order. -/
theorem c3_counterexample :
    (((transcribeModel fsCli envAllEmpty).invocations.map fun i => i.args).getD 2 []) =
      [WHISPER_BINARY_CLI, "--model", BASE_MODEL_PATH, "--file",
       "/tmp/req/converted.wav", "--print-special", "--print-progress"] ∧
    ((((transcribeModel fsCli envAllEmpty).invocations.map fun i => i.args).getD 2 []).contains
        "auto" = false) ∧
    ((((transcribeModel fsCli envAllEmpty).invocations.map fun i => i.args).getD 2 []).contains
        "--language" = false) ∧
    ((((transcribeModel fsCli envAllEmpty).invocations.map fun i => i.args).getD 2 []).contains
        "-l" = false) ∧
    ((((transcribeModel fsCli envAllEmpty).invocations.map fun i => i.args).getD 2 []).contains
        "--detect-language" = false) ∧
    ((((transcribeModel fsCli envAllEmpty).invocations.map fun i => i.args).getD 3 []).contains
        "--language" = true) ∧
    ((((transcribeModel fsCli envAllEmpty).invocations.map fun i => i.args).getD 3 []).contains
        "en" = true) ∧
    ((((transcribeModel fsCli envAllEmpty).invocations.map fun i => i.args).getD 3 []).contains
        "auto" = false) ∧
    ((((transcribeModel fsCli envAllEmpty).invocations.map fun i => i.args).getD 1 []).contains
        "--output-txt" = true) ∧
    ((((transcribeModel fsCli envAllEmpty).invocations.map fun i => i.args).getD 4 []).contains
        "--output-txt" = false) := by
  decide

/-- C3 amended: on a full run (decode ok, first three attempts empty,
active model is base, tiny model present) the chain performs exactly, in
order: the ffmpeg decode, the standard plain-text attempt, the
verbose/streaming attempt, the explicit-English-language attempt, and the
tiny-model fallback that passes only model and file flags. -/
theorem c3_amended_attempt_order (fs : StartupFs) (env : TranscribeEnv)
    (hrc : env.decodeRc = 0) (hwp : env.wavPresent = true) (hws : env.wavSize ≠ 0)
    (h1 : extractStd env.a1 = "") (h2 : extractStream env.a2 = "")
    (h3 : extractStream env.a3 = "")
    (hg : MODEL_PATH fs = BASE_MODEL_PATH) (ht : env.tinyPresent = true) :
    ((transcribeModel fs env).invocations.map fun i => i.args) =
      [convertCmd env.inputPath env.wavPath,
       stdCmd (WHISPER_BINARY fs == WHISPER_BINARY_CLI) (WHISPER_BINARY fs)
         (MODEL_PATH fs) env.wavPath,
       streamCmd (WHISPER_BINARY fs == WHISPER_BINARY_CLI) (WHISPER_BINARY fs)
         (MODEL_PATH fs) env.wavPath,
       langCmd (WHISPER_BINARY fs == WHISPER_BINARY_CLI) (WHISPER_BINARY fs)
         (MODEL_PATH fs) env.wavPath,
       tinyCmd (WHISPER_BINARY fs == WHISPER_BINARY_CLI) (WHISPER_BINARY fs)
         TINY_MODEL_PATH env.wavPath] := by
  by_cases h4 : extractStream env.a4 = "" <;>
    simp [transcribeModel, hrc, hwp, hws, h1, h2, h3, h4, hg, ht]

/-- C3 amended witness: the concrete all-empty run performs exactly the
five invocations in the amended order. -/
theorem c3_amended_attempt_order_witness :
    ((transcribeModel fsCli envAllEmpty).invocations.map fun i => i.args) =
      [convertCmd envAllEmpty.inputPath envAllEmpty.wavPath,
       stdCmd (WHISPER_BINARY fsCli == WHISPER_BINARY_CLI) (WHISPER_BINARY fsCli)
         (MODEL_PATH fsCli) envAllEmpty.wavPath,
       streamCmd (WHISPER_BINARY fsCli == WHISPER_BINARY_CLI) (WHISPER_BINARY fsCli)
         (MODEL_PATH fsCli) envAllEmpty.wavPath,
       langCmd (WHISPER_BINARY fsCli == WHISPER_BINARY_CLI) (WHISPER_BINARY fsCli)
         (MODEL_PATH fsCli) envAllEmpty.wavPath,
       tinyCmd (WHISPER_BINARY fsCli == WHISPER_BINARY_CLI) (WHISPER_BINARY fsCli)
         TINY_MODEL_PATH envAllEmpty.wavPath] :=
  c3_amended_attempt_order fsCli envAllEmpty (by decide) (by decide) (by decide)
    (by decide) (by decide) (by decide) (by decide) (by decide)

/-! ### C4 -/

/-- C4 counterexample: with the base model present at 50000000 bytes
(below its 100000000-byte discovery threshold) and the tiny model absent,
discovery selects the base path, yet the health check reports `healthy`
and model status `Valid`, because line 454 of main.py compares the active
model's size against the fixed 10000000-byte bound, not against the
threshold used at discovery. -/
theorem c4_counterexample :
    MODEL_PATH fsBaseSmall = BASE_MODEL_PATH ∧
    pathExistsAt fsBaseSmall (MODEL_PATH fsBaseSmall) = true ∧
    fileSizeAt fsBaseSmall (MODEL_PATH fsBaseSmall) <
      discoveryThreshold (MODEL_PATH fsBaseSmall) ∧
    healthStatus fsBaseSmall = "healthy" ∧
    activeModelStatus fsBaseSmall = "Valid" := by
  decide

/-- C4 amended: the health check reports `healthy` iff the selected
binary exists and is executable and the active model exists with size
strictly over the fixed 10000000-byte bound (regardless of which model is
active); an active model that is present with size at most 10000000 bytes
yields `unhealthy` with model status `Invalid/Corrupted`. -/
theorem c4_amended_health_condition (fs : StartupFs) :
    (healthStatus fs = "healthy" ↔
      (pathExistsAt fs (WHISPER_BINARY fs) = true ∧
       binExecAt fs (WHISPER_BINARY fs) = true ∧
       pathExistsAt fs (MODEL_PATH fs) = true ∧
       fileSizeAt fs (MODEL_PATH fs) > 10000000)) ∧
    (pathExistsAt fs (MODEL_PATH fs) = true →
     fileSizeAt fs (MODEL_PATH fs) ≤ 10000000 →
     healthStatus fs = "unhealthy" ∧
     activeModelStatus fs = "Invalid/Corrupted") := by
  constructor
  · by_cases hbe : pathExistsAt fs (WHISPER_BINARY fs) = true <;>
      by_cases hbx : binExecAt fs (WHISPER_BINARY fs) = true <;>
      by_cases hme : pathExistsAt fs (MODEL_PATH fs) = true <;>
      by_cases hsz : fileSizeAt fs (MODEL_PATH fs) > 10000000 <;>
      simp [healthStatus, hbe, hbx, hme, hsz]
  · intro hme hsz
    have h : ¬ (fileSizeAt fs (MODEL_PATH fs) > 10000000) := by omega
    simp [healthStatus, activeModelStatus, hme, h]

/-- C4 amended witness: a present 8000000-byte base model yields
`unhealthy` and `Invalid/Corrupted`. -/
theorem c4_amended_health_condition_witness :
    healthStatus fsBaseTiny = "unhealthy" ∧
    activeModelStatus fsBaseTiny = "Invalid/Corrupted" :=
  (c4_amended_health_condition fsBaseTiny).2 (by decide) (by decide)

/-! ### C6 -/

/-- C6 counterexample: when ffmpeg exits 0 with diagnostics `boom` on
stderr but the output wav is zero bytes, the response is 500 and no
attempt runs, yet its body is the fixed message `Error: Failed to convert
audio file`, which does not carry the decoder's diagnostic stream. -/
theorem c6_counterexample :
    envWavEmpty.decodeStderr = "boom" ∧
    (transcribeModel fsCli envWavEmpty).status = 500 ∧
    strContains (transcribeModel fsCli envWavEmpty).transcript "boom" = false ∧
    (transcribeModel fsCli envWavEmpty).invocations.length = 1 := by
  decide

/-- C6 amended: on every decode failure (non-zero exit, or missing or
zero-byte wav) the orchestration returns status 500 and performs no
inference invocation beyond the decode call; the response carries the
decoder's stderr exactly when the decoder exited non-zero, while the
missing/empty-artifact case returns a fixed message. -/
theorem c6_amended_decode_failure (fs : StartupFs) (env : TranscribeEnv)
    (hfail : env.decodeRc ≠ 0 ∨ env.wavPresent = false ∨ env.wavSize = 0) :
    (transcribeModel fs env).status = 500 ∧
    ((transcribeModel fs env).invocations.map fun i => i.args) =
      [convertCmd env.inputPath env.wavPath] ∧
    (env.decodeRc ≠ 0 →
      (transcribeModel fs env).transcript =
        "Error: Failed to convert audio file. ffmpeg error: " ++ env.decodeStderr) := by
  by_cases hrc : env.decodeRc ≠ 0
  · simp [transcribeModel, hrc]
  · have hw : env.wavPresent = false ∨ env.wavSize = 0 := by tauto
    simp [transcribeModel, hrc, hw]

/-- C6 amended witness: the non-zero-exit decode failure carries the
decoder's stderr verbatim. -/
theorem c6_amended_decode_failure_witness :
    (transcribeModel fsCli envDecodeFail).transcript =
      "Error: Failed to convert audio file. ffmpeg error: " ++
        envDecodeFail.decodeStderr :=
  (c6_amended_decode_failure fsCli envDecodeFail (by decide)).2.2 (by decide)

/-! ### C8 -/

/-- C8 counterexample: a present, non-empty sidecar file at the second
(streaming) attempt is ignored by the code, which parses stdout only
there — the chain falls through to the sentinel instead of stopping with
the sidecar text `hello` that the claimed per-attempt rule would return. -/
theorem c8_counterexample :
    envSidecar2.a2.txt = some "hello" ∧
    strTrim "hello" ≠ "" ∧
    specSidecarFirstRule keepStream envSidecar2.a2 = "hello" ∧
    extractStream envSidecar2.a2 = "" ∧
    (transcribeModel fsCli envSidecar2).transcript = sentinelMsg := by
  decide

/-- C8 amended: the chain halts at the first attempt whose extracted text
is non-empty (performing no later inference invocation); the first
attempt's extraction follows the sidecar-first rule, while subsequent
attempts extract from filtered stdout only, ignoring any sidecar file. -/
theorem c8_amended_first_hit_halts (fs : StartupFs) (env : TranscribeEnv)
    (hrc : env.decodeRc = 0) (hwp : env.wavPresent = true) (hws : env.wavSize ≠ 0) :
    (extractStd env.a1 ≠ "" →
      (transcribeModel fs env).transcript = extractStd env.a1 ∧
      (transcribeModel fs env).invocations.length = 2) ∧
    (extractStd env.a1 = "" → extractStream env.a2 ≠ "" →
      (transcribeModel fs env).transcript = extractStream env.a2 ∧
      (transcribeModel fs env).invocations.length = 3) ∧
    (extractStd env.a1 = "" → extractStream env.a2 = "" → extractStream env.a3 ≠ "" →
      (transcribeModel fs env).transcript = extractStream env.a3 ∧
      (transcribeModel fs env).invocations.length = 4) ∧
    extractStd env.a1 = specSidecarFirstRule keepStd env.a1 ∧
    extractStream env.a2 = joinKept keepStream env.a2.out := by
  refine ⟨?_, ?_, ?_, rfl, rfl⟩
  · intro h1
    simp [transcribeModel, hrc, hwp, hws, h1]
  · intro h1 h2
    simp [transcribeModel, hrc, hwp, hws, h1, h2]
  · intro h1 h2 h3
    simp [transcribeModel, hrc, hwp, hws, h1, h2, h3]

/-- C8 amended witness: the concrete request whose first attempt writes
the sidecar `hello world` stops after that attempt. -/
theorem c8_amended_first_hit_halts_witness :
    (transcribeModel fsCli envOk).transcript = extractStd envOk.a1 ∧
    (transcribeModel fsCli envOk).invocations.length = 2 :=
  (c8_amended_first_hit_halts fsCli envOk (by decide) (by decide) (by decide)).1
    (by decide)

/-! ### C9 -/

/-- C9: releasing a workspace is idempotent — the second release (or a
release of an absent scope) is a no-op raising no error, and the first
release removes the directory and every path under it recursively. -/
theorem c9_release_idempotent :
    (∀ td fsPaths, cleanup_temp_files td (cleanup_temp_files td fsPaths) =
        cleanup_temp_files td fsPaths) ∧
    (∀ td fsPaths, td ∉ fsPaths → cleanup_temp_files td fsPaths = fsPaths) ∧
    (∀ td fsPaths p, td ∈ fsPaths → p ∈ cleanup_temp_files td fsPaths →
        isUnderDir td p = false) := by
  refine ⟨?_, ?_, ?_⟩
  · intro td fsPaths
    by_cases h : td ∈ fsPaths
    · have hnot : td ∉ fsPaths.filter (fun p => !(isUnderDir td p)) := by
        intro hc
        have h2 := (List.mem_filter.mp hc).2
        simp [isUnderDir_self td] at h2
      simp [cleanup_temp_files, h, hnot]
    · simp [cleanup_temp_files, h]
  · intro td fsPaths h
    simp [cleanup_temp_files, h]
  · intro td fsPaths p hmem hp
    unfold cleanup_temp_files at hp
    rw [if_pos hmem] at hp
    have h2 := (List.mem_filter.mp hp).2
    simpa using h2

/-- C9 witness: on a concrete filesystem, the second release is a no-op
and a surviving unrelated path is not under the released scope. -/
theorem c9_release_idempotent_witness :
    cleanup_temp_files "/tmp/w"
        (cleanup_temp_files "/tmp/w" ["/tmp/w", "/tmp/w/in.wav", "/tmp/keep"]) =
      cleanup_temp_files "/tmp/w" ["/tmp/w", "/tmp/w/in.wav", "/tmp/keep"] ∧
    isUnderDir "/tmp/w" "/tmp/keep" = false :=
  ⟨c9_release_idempotent.1 "/tmp/w" ["/tmp/w", "/tmp/w/in.wav", "/tmp/keep"],
   c9_release_idempotent.2.2 "/tmp/w" ["/tmp/w", "/tmp/w/in.wav", "/tmp/keep"]
     "/tmp/keep" (by decide) (by decide)⟩

/-! ### C10 -/

/-- C10: the first attempt's stdout filter discards exactly the
warning-marker lines and blank lines (so it keeps bracketed lines), the
later attempts' filter additionally discards lines beginning with a
bracket, and on a stdout of only bracketed timestamp lines the first
attempt returns those lines as the transcript while the later extraction
yields empty text. -/
theorem c10_bracket_line_filters :
    (∀ l, keepStd l = (!hasMarker l && !(decide (strTrim l = "")))) ∧
    (∀ l, keepStream l = (keepStd l && !(strStarts l '['))) ∧
    extractStd ⟨none, bracketOnlyOut⟩ = bracketOnlyOut ∧
    extractStream ⟨none, bracketOnlyOut⟩ = "" ∧
    (transcribeModel fsCli envBracket).transcript = bracketOnlyOut ∧
    (transcribeModel fsCli envBracket).status = 200 ∧
    bracketOnlyOut ≠ "" := by
  refine ⟨?_, ?_, by decide, by decide, by decide, by decide, by decide⟩
  · intro l
    by_cases hm : hasMarker l
    · simp [keepStd, hm]
    · by_cases ht : strTrim l = "" <;> simp [keepStd, hm, ht]
  · intro l
    by_cases hm : hasMarker l
    · simp [keepStream, keepStd, hm]
    · by_cases hb : strStarts l '[' <;> by_cases ht : strTrim l = "" <;>
        simp [keepStream, keepStd, hm, hb, ht]

end WhisperApi
